import Mathlib

/-!
Verification of the browser-based uptime probe engine (real-browser monitor):
a shallow embedding of the browser pools, the Cloudflare challenge waiter,
the navigation strategy and the check orchestrator, with theorems settling
the specification claims.

Conventions of the embedding:
* JavaScript errors become the `JsError` structure (name, message).
* `await`-able operations whose outcome depends on the outside world
  (context creation, page loads, screenshots, closes) are supplied as
  fields of an environment record; the embedded control flow consumes them
  exactly where the source awaits them.
* Millisecond arithmetic (`Math.floor(x * 0.8)` etc. on integer inputs)
  is `Nat` arithmetic with floor division.
* Side effects are recorded in a trace of events so that ordering claims
  (navigation attempted, screenshot taken, context closed) are provable.
-/

set_option linter.unusedVariables false

/-- A JavaScript-style error: `name` and `message` fields. -/
structure JsError where
  name : String
  message : String
deriving DecidableEq

deriving instance DecidableEq for Except

/-- Does the second char list start with the first one? -/
def charsStartWith : List Char → List Char → Bool
  | [], _ => true
  | _ :: _, [] => false
  | a :: as, b :: bs => a == b && charsStartWith as bs

/-- Does some suffix of the second char list start with the first one? -/
def charsContain (sub : List Char) : List Char → Bool
  | [] => charsStartWith sub []
  | c :: cs => charsStartWith sub (c :: cs) || charsContain sub cs

/-- JS `String.prototype.includes`: substring containment (empty needle
is always contained). -/
def strIncludes (s sub : String) : Bool :=
  charsContain sub.data s.data

/-- `isBrowserClosedError`: the error message contains one of the
connection-closed markers. -/
def isBrowserClosedError (e : JsError) : Bool :=
  strIncludes e.message "Target page, context or browser has been closed" ||
  strIncludes e.message "Target closed" ||
  strIncludes e.message "Browser has been closed" ||
  strIncludes e.message "Connection closed"

/-- `isNavigationTimeoutError`: error name is `TimeoutError`, or the
message mentions a timeout. -/
def isNavigationTimeoutError (e : JsError) : Bool :=
  e.name == "TimeoutError" ||
  strIncludes e.message "Timeout" ||
  strIncludes e.message "timed out"

/-- The fixed Cloudflare challenge marker phrases. -/
def cloudflareChallengeMarkers : List String :=
  [ "checking your browser before accessing",
    "performing security verification",
    "just a moment",
    "verify you are human",
    "attention required!" ]

/-- The text inspected by the in-page evaluation: lower-cased title,
newline, lower-cased body text (as a char list, the representation of a
Lean string). -/
def pageTextChars (title body : String) : List Char :=
  title.data.map Char.toLower ++ '\n' :: body.data.map Char.toLower

/-- `isCloudflareChallengePage`: some challenge marker occurs in the
page text. -/
def isCloudflareChallengePage (title body : String) : Bool :=
  cloudflareChallengeMarkers.any
    (fun marker => charsContain marker.data (pageTextChars title body))

/-- Error raised when the challenge does not clear within its window. -/
def cloudflareTimeoutError : JsError :=
  ⟨"Error", "Cloudflare challenge was not solved within the timeout."⟩

/-- `waitForCloudflareChallengeIfNeeded`: if the page does not look like a
challenge, return at once (no wait window opened).  Otherwise wait inside a
window of `max 3000 (min 20000 ⌊timeout × 0.7⌋)` ms; the environment flag
`clears` says whether the in-page predicate became true within the window.
Returns the outcome together with the window that was opened (if any). -/
def waitForCloudflareChallengeIfNeeded (title body : String) (timeout : Nat)
    (clears : Bool) : Except JsError Unit × Option Nat :=
  if !(isCloudflareChallengePage title body) then
    (.ok (), none)
  else
    let waitTimeout := max 3000 (min 20000 (timeout * 7 / 10))
    if clears then (.ok (), some waitTimeout)
    else (.error cloudflareTimeoutError, some waitTimeout)

/-!  ## Remote browser pool -/

/-- A handle to a live browser connection.  `hid` stands in for JavaScript
reference identity (two distinct live handles have distinct `hid`s);
`connected` is the liveness flag reported by `isConnected()`. -/
structure BrowserHandle where
  hid : Nat
  connected : Bool
deriving DecidableEq

/-- The remote-browser configuration record resolved by `RemoteBrowser.get`. -/
structure RemoteBrowserRecord where
  id : Nat
  url : String
deriving DecidableEq

/-- One entry of `remoteBrowserConnections`: the endpoint URL used at connect
time together with the connected handle. -/
structure CacheEntry where
  url : String
  browser : BrowserHandle
deriving DecidableEq

/-- The `remoteBrowserConnections` map, as an association list keyed by the
remote browser id. -/
abbrev RemoteCache := List (Nat × CacheEntry)

/-- `Map.get`. -/
def cacheGet (c : RemoteCache) (k : Nat) : Option CacheEntry :=
  (c.find? (fun p => p.1 == k)).map (fun p => p.2)

/-- `Map.delete`. -/
def cacheDelete (c : RemoteCache) (k : Nat) : RemoteCache :=
  c.filter (fun p => p.1 != k)

/-- `Map.set`: replace in place if the key is present, else append. -/
def cacheSet (c : RemoteCache) (k : Nat) (e : CacheEntry) : RemoteCache :=
  if (c.find? (fun p => p.1 == k)).isSome then
    c.map (fun p => if p.1 == k then (k, e) else p)
  else
    c ++ [(k, e)]

/-- The keys stored in the cache. -/
def cacheKeys (c : RemoteCache) : List Nat := c.map (fun p => p.1)

/-- Error raised when the remote-browser record cannot be resolved. -/
def remoteNotFoundError (remoteBrowserID : Nat) : JsError :=
  ⟨"Error", "Remote browser #" ++ toString remoteBrowserID ++ " not found"⟩

/-- `getRemoteBrowser`: resolve the record (`record` is the result of the
external lookup), reuse the cached connection when it is still connected and
its URL matches, otherwise best-effort close and evict any stale entry and
connect anew (`connectResult` is the outcome `chromium.connect` would give;
`closeFails` says whether closing the stale handle would throw — the throw is
swallowed).  Returns (result, cache after the call, hids close was invoked
on). -/
def getRemoteBrowser (remoteBrowserID : Nat) (record : Option RemoteBrowserRecord)
    (cache : RemoteCache) (connectResult : Except JsError BrowserHandle)
    (closeFails : Bool) :
    Except JsError BrowserHandle × RemoteCache × List Nat :=
  match record with
  | none => (.error (remoteNotFoundError remoteBrowserID), cache, [])
  | some rb =>
    match cacheGet cache rb.id with
    | some entry =>
      if entry.browser.connected && entry.url == rb.url then
        (.ok entry.browser, cache, [])
      else
        let cache1 := cacheDelete cache rb.id
        match connectResult with
        | .error e => (.error e, cache1, [entry.browser.hid])
        | .ok fresh =>
          (.ok fresh, cacheSet cache1 rb.id ⟨rb.url, fresh⟩, [entry.browser.hid])
    | none =>
      match connectResult with
      | .error e => (.error e, cache, [])
      | .ok fresh => (.ok fresh, cacheSet cache rb.id ⟨rb.url, fresh⟩, [])

/-- The `disconnected` observer registered at connect time for `key`: delete
the entry only if it still holds the exact handle that disconnected. -/
def onRemoteDisconnected (cache : RemoteCache) (key : Nat) (handle : BrowserHandle) :
    RemoteCache :=
  match cacheGet cache key with
  | some current => if current.browser.hid == handle.hid then cacheDelete cache key else cache
  | none => cache

/-- `clearRemoteBrowserConnection`: best-effort close of the cached handle and
unconditional removal of the entry.  Returns (cache after, hids close was
invoked on). -/
def clearRemoteBrowserConnection (cache : RemoteCache) (remoteBrowserID : Nat) :
    RemoteCache × List Nat :=
  match cacheGet cache remoteBrowserID with
  | none => (cache, [])
  | some entry => (cacheDelete cache remoteBrowserID, [entry.browser.hid])

/-!  ## Local browser pool -/

/-- The two module-level slots `localBrowser` and `localCloudflareBrowser`. -/
structure LocalPool where
  localBrowser : Option BrowserHandle
  localCloudflareBrowser : Option BrowserHandle
deriving DecidableEq

/-- `resetChrome`: close the plain slot's handle if present and clear the
slot, then the same for the challenge slot.  `plainCloseErr` /
`chalCloseErr` are the errors the two `close()` calls would throw (`none` =
close succeeds).  Returns (outcome, pool state after, hids close was invoked
on, in order). -/
def resetChrome (pool : LocalPool) (plainCloseErr chalCloseErr : Option JsError) :
    Except JsError Unit × LocalPool × List Nat :=
  let step1 : Except JsError LocalPool × List Nat :=
    match pool.localBrowser with
    | none => (.ok pool, [])
    | some b =>
      match plainCloseErr with
      | some e => (.error e, [b.hid])
      | none => (.ok ⟨none, pool.localCloudflareBrowser⟩, [b.hid])
  match step1 with
  | (.error e, att) => (.error e, pool, att)
  | (.ok pool1, att) =>
    match pool1.localCloudflareBrowser with
    | none => (.ok (), pool1, att)
    | some b =>
      match chalCloseErr with
      | some e => (.error e, pool1, att ++ [b.hid])
      | none => (.ok (), ⟨pool1.localBrowser, none⟩, att ++ [b.hid])

/-!  ## The check itself (`RealBrowserMonitorType.check` / `runCheck`) -/

/-- The monitor fields `check` reads.  `urlProtocol` is the `protocol` of
`new URL(monitor.url)`. -/
structure Monitor where
  id : Nat
  name : String
  urlProtocol : String
  subtype : Option String
  interval : Nat
  screenshotDelay : Nat
  remoteBrowser : Option Nat
  userId : Nat

/-- A navigation response: HTTP status and the request timing's
`responseEnd` marker. -/
structure Response where
  status : Nat
  responseEnd : Nat
deriving DecidableEq

/-- The successful outcome written into the heartbeat: `status = UP`,
`msg = res.status()`, `ping = timing.responseEnd`. -/
structure CheckSuccess where
  statusCode : Nat
  ping : Nat
deriving DecidableEq

/-- The two `waitUntil` load conditions the check uses. -/
inductive WaitKind
  | networkidle
  | domcontentloaded
deriving DecidableEq

/-- Observable events of one `runCheck` invocation, in order. -/
inductive Ev
  | newContext
  | newPage
  | gotoCalled (wait : WaitKind) (timeout : Nat)
  | challengeWaited (window : Nat)
  | delayWaited (ms : Nat)
  | screenshotTaken (filename : String)
  | contextClosed
deriving DecidableEq

/-- Environment of one `runCheck` invocation: the outcomes the awaited
browser operations would have, consumed where the source awaits them. -/
structure RunEnv where
  newContextErr : Option JsError
  newPageErr : Option JsError
  goto1 : Except JsError (Option Response)
  goto2 : Except JsError (Option Response)
  pageTitle : String
  pageBody : String
  challengeClears : Bool
  screenshotErr : Option JsError
  closeErr : Option JsError

/-- The per-check timeout budget: `max(1000, ⌊interval × 1000 × 0.8⌋)` ms. -/
def checkTimeout (interval : Nat) : Nat :=
  max 1000 (interval * 1000 * 8 / 10)

/-- Error thrown on a URL scheme other than http/https. -/
def invalidProtocolError : JsError :=
  ⟨"Error", "Invalid url protocol, only http and https are allowed."⟩

/-- Error thrown when navigation yields no response object. -/
def noResponseError : JsError :=
  ⟨"Error", "Failed to navigate to page: no response returned by browser."⟩

/-- The local-file-inclusion guard: accept only `http:` and `https:`. -/
def validateUrlProtocol (protocol : String) : Except JsError Unit :=
  if protocol != "http:" && protocol != "https:" then .error invalidProtocolError
  else .ok ()

/-- Plain-mode navigation: `networkidle` at the full budget; on a
timeout-classified error retry once with `domcontentloaded` at
`max(1000, ⌊0.6 × budget⌋)`; any other error propagates. -/
def navigatePlain (timeout : Nat) (env : RunEnv) :
    Except JsError (Option Response) × List Ev :=
  match env.goto1 with
  | .ok r => (.ok r, [.gotoCalled .networkidle timeout])
  | .error e =>
    if !(isNavigationTimeoutError e) then
      (.error e, [.gotoCalled .networkidle timeout])
    else
      let fallbackTimeout := max 1000 (timeout * 6 / 10)
      (env.goto2,
        [.gotoCalled .networkidle timeout, .gotoCalled .domcontentloaded fallbackTimeout])

/-- Events of the challenge wait (the window it opened, if any). -/
def challengeWaitEvents (window : Option Nat) : List Ev :=
  match window with
  | none => []
  | some w => [.challengeWaited w]

/-- Challenge-aware navigation: `domcontentloaded` load, challenge wait,
then a verification reload at `max(3000, ⌊0.6 × budget⌋)`; the second
response replaces the first only when it is non-null. -/
def navigateCloudflare (timeout : Nat) (env : RunEnv) :
    Except JsError (Option Response) × List Ev :=
  match env.goto1 with
  | .error e => (.error e, [.gotoCalled .domcontentloaded timeout])
  | .ok r1 =>
    let wait := waitForCloudflareChallengeIfNeeded env.pageTitle env.pageBody timeout
      env.challengeClears
    match wait.1 with
    | .error e =>
      (.error e, .gotoCalled .domcontentloaded timeout :: challengeWaitEvents wait.2)
    | .ok _ =>
      let verifyTimeout := max 3000 (timeout * 6 / 10)
      match env.goto2 with
      | .error e =>
        (.error e, .gotoCalled .domcontentloaded timeout :: challengeWaitEvents wait.2
          ++ [.gotoCalled .domcontentloaded verifyTimeout])
      | .ok r2 =>
        (.ok (if r2.isSome then r2 else r1),
          .gotoCalled .domcontentloaded timeout :: challengeWaitEvents wait.2
            ++ [.gotoCalled .domcontentloaded verifyTimeout])

/-- Classification of the final response: status in `[200, 400)` is UP with
`ping = responseEnd`; otherwise throw an error whose message is the status. -/
def classify (res : Response) : Except JsError CheckSuccess :=
  if 200 ≤ res.status ∧ res.status < 400 then .ok ⟨res.status, res.responseEnd⟩
  else .error ⟨"Error", toString res.status⟩

/-- The body of `runCheck` (everything inside the `try`): page creation,
URL-scheme guard, navigation, null-response guard, optional delay,
screenshot, classification. -/
def runBody (m : Monitor) (sig : String) (env : RunEnv) :
    Except JsError CheckSuccess × List Ev :=
  match env.newPageErr with
  | some e => (.error e, [])
  | none =>
    match validateUrlProtocol m.urlProtocol with
    | .error e => (.error e, [.newPage])
    | .ok _ =>
      let timeout := checkTimeout m.interval
      let nav :=
        if m.subtype == some "cf" then navigateCloudflare timeout env
        else navigatePlain timeout env
      match nav.1 with
      | .error e => (.error e, .newPage :: nav.2)
      | .ok none => (.error noResponseError, .newPage :: nav.2)
      | .ok (some res) =>
        let delayEvs : List Ev :=
          if m.screenshotDelay > 0 then [.delayWaited m.screenshotDelay] else []
        match env.screenshotErr with
        | some e => (.error e, .newPage :: nav.2 ++ delayEvs)
        | none =>
          (classify res,
            .newPage :: nav.2 ++ delayEvs ++ [.screenshotTaken (sig ++ ".png")])

/-- `runCheck`: create the browsing context, run the body, and in the
`finally` close the context, swallowing any close error (the environment's
`closeErr` is irrelevant to the outcome).  `sig` is
`jwt.sign(monitor.id, server.jwtSecret)`. -/
def runCheck (m : Monitor) (sig : String) (env : RunEnv) :
    Except JsError CheckSuccess × List Ev :=
  match env.newContextErr with
  | some e => (.error e, [])
  | none =>
    let body := runBody m sig env
    (body.1, .newContext :: body.2 ++ [.contextClosed])

/-!  ## The outer `check` method: browser selection and remote recovery -/

/-- Result of one `check` invocation: the outcome, the remote cache after
the call, how many times `runCheck` was started, and the ids passed to
`clearRemoteBrowserConnection`. -/
structure CheckOutcome where
  result : Except JsError CheckSuccess
  cache : RemoteCache
  runAttempts : Nat
  evictions : List Nat

/-- One remote attempt: acquire via `getRemoteBrowser`, then run the check
(`run` is the outcome `runCheck` would have on the acquired browser).
Returns (outcome, cache after). -/
def remoteAttempt (remoteBrowserID : Nat) (record : Option RemoteBrowserRecord)
    (cache : RemoteCache) (connectResult : Except JsError BrowserHandle)
    (run : Except JsError CheckSuccess) :
    Except JsError CheckSuccess × RemoteCache :=
  let g := getRemoteBrowser remoteBrowserID record cache connectResult false
  match g.1 with
  | .error e => (.error e, g.2.1)
  | .ok _ => (run, g.2.1)

/-- `RealBrowserMonitorType.check`, one level above `runCheck`.  Local mode
(`remoteBrowser = none`): a single `runCheck` whose outcome propagates.
Remote mode: attempt once; if the attempt fails with a connection-closed
class error, evict the cached handle for the configured id, reacquire and
re-run exactly once more, whose outcome propagates as-is.  `run1`/`run2`
are the outcomes the first and second `runCheck` would have;
`connect1`/`connect2` the outcomes of the two possible `chromium.connect`
calls. -/
def check (remoteRef : Option Nat) (record : Option RemoteBrowserRecord)
    (cache : RemoteCache) (connect1 connect2 : Except JsError BrowserHandle)
    (run1 run2 : Except JsError CheckSuccess) : CheckOutcome :=
  match remoteRef with
  | none => ⟨run1, cache, 1, []⟩
  | some rid =>
    let a1 := remoteAttempt rid record cache connect1 run1
    match a1.1 with
    | .ok s => ⟨.ok s, a1.2, 1, []⟩
    | .error e =>
      if isBrowserClosedError e then
        let cleared := clearRemoteBrowserConnection a1.2 rid
        let a2 := remoteAttempt rid record cleared.1 connect2 run2
        ⟨a2.1, a2.2, 2, [rid]⟩
      else
        ⟨.error e, a1.2, 1, []⟩

/-!  ## Cache helper lemmas -/

theorem cacheGet_delete (c : RemoteCache) (k : Nat) : cacheGet (cacheDelete c k) k = none := by
  unfold cacheGet cacheDelete
  rw [show (List.find? (fun p => p.1 == k) (List.filter (fun p => p.1 != k) c)) = none from ?_]
  · rfl
  · rw [List.find?_eq_none]
    intro p hp
    have hpk := (List.mem_filter.mp hp).2
    simpa using hpk

theorem cacheGet_eq_none_find (c : RemoteCache) (k : Nat) (h : cacheGet c k = none) :
    c.find? (fun p => p.1 == k) = none := by
  unfold cacheGet at h
  cases hf : c.find? (fun p => p.1 == k) with
  | none => rfl
  | some p => rw [hf] at h; simp at h

theorem cacheGet_set_of_none (c : RemoteCache) (k : Nat) (e : CacheEntry)
    (h : cacheGet c k = none) : cacheGet (cacheSet c k e) k = some e := by
  have hf := cacheGet_eq_none_find c k h
  unfold cacheSet
  rw [hf]
  simp only [Option.isSome_none, Bool.false_eq_true, if_false]
  unfold cacheGet
  rw [List.find?_append, hf]
  simp [List.find?]

theorem keysNodup_delete (c : RemoteCache) (k : Nat)
    (h : (cacheKeys c).Nodup) : (cacheKeys (cacheDelete c k)).Nodup := by
  apply List.Nodup.sublist _ h
  exact List.Sublist.map _ (List.filter_sublist c)

theorem keysNodup_set (c : RemoteCache) (k : Nat) (e : CacheEntry)
    (h : (cacheKeys c).Nodup) : (cacheKeys (cacheSet c k e)).Nodup := by
  unfold cacheSet
  cases hf : c.find? (fun p => p.1 == k) with
  | some p =>
    simp only [hf, Option.isSome_some, if_true]
    have hkeys : cacheKeys (c.map (fun p => if p.1 == k then (k, e) else p)) = cacheKeys c := by
      unfold cacheKeys
      rw [List.map_map]
      congr 1
      funext p
      by_cases hp : p.1 = k
      · simp [hp]
      · simp [Function.comp, hp]
    rw [hkeys]; exact h
  | none =>
    simp only [hf, Option.isSome_none, Bool.false_eq_true, if_false]
    unfold cacheKeys
    rw [List.map_append]
    rw [List.nodup_append]
    refine ⟨h, by simp, ?_⟩
    intro a ha hb
    simp at hb
    subst hb
    rw [List.find?_eq_none] at hf
    simp only [cacheKeys, List.mem_map] at ha
    obtain ⟨p, hp, hpk⟩ := ha
    exact (hf p hp) (by simp [hpk])

theorem clear_cacheGet (c : RemoteCache) (k : Nat) :
    cacheGet (clearRemoteBrowserConnection c k).1 k = none := by
  unfold clearRemoteBrowserConnection
  cases hg : cacheGet c k with
  | none => exact hg
  | some entry => exact cacheGet_delete c k

theorem keysNodup_clear (c : RemoteCache) (k : Nat)
    (h : (cacheKeys c).Nodup) : (cacheKeys (clearRemoteBrowserConnection c k).1).Nodup := by
  unfold clearRemoteBrowserConnection
  cases hg : cacheGet c k with
  | none => exact h
  | some entry => exact keysNodup_delete c k h

theorem getRemoteBrowser_connect_ok (rid : Nat) (rb : RemoteBrowserRecord)
    (cache : RemoteCache) (h : BrowserHandle) (cf : Bool) :
    ∃ b, (getRemoteBrowser rid (some rb) cache (.ok h) cf).1 = .ok b := by
  cases hg : cacheGet cache rb.id with
  | none => exact ⟨h, by simp [getRemoteBrowser, hg]⟩
  | some entry =>
    by_cases hv : entry.browser.connected && entry.url == rb.url
    · exact ⟨entry.browser, by simp [getRemoteBrowser, hg, hv]⟩
    · exact ⟨h, by simp only [getRemoteBrowser, hg]; simp [hv]⟩

theorem remoteAttempt_connect_ok (rid : Nat) (rb : RemoteBrowserRecord)
    (cache : RemoteCache) (h : BrowserHandle) (run : Except JsError CheckSuccess) :
    remoteAttempt rid (some rb) cache (.ok h) run =
      (run, (getRemoteBrowser rid (some rb) cache (.ok h) false).2.1) := by
  obtain ⟨b, hb⟩ := getRemoteBrowser_connect_ok rid rb cache h false
  simp only [remoteAttempt]
  rw [hb]

theorem getRemoteBrowser_miss (rid : Nat) (rb : RemoteBrowserRecord)
    (cache : RemoteCache) (h : BrowserHandle) (cf : Bool)
    (hg : cacheGet cache rb.id = none) :
    getRemoteBrowser rid (some rb) cache (.ok h) cf =
      (.ok h, cacheSet cache rb.id ⟨rb.url, h⟩, []) := by
  simp [getRemoteBrowser, hg]

/-!  ## Claim theorems -/

/-- Monitor pointing at `file:///etc/passwd` (plain mode, local browser). -/
def monFile : Monitor := ⟨1, "m1", "file:", none, 5, 0, none, 1⟩

/-- Monitor with an https URL (plain mode, local browser). -/
def monPlain : Monitor := ⟨1, "m1", "https:", none, 5, 0, none, 1⟩

/-- Environment where everything succeeds and navigation yields HTTP 200. -/
def envOk : RunEnv :=
  ⟨none, none, .ok (some ⟨200, 7⟩), .ok none, "Welcome", "hello", true, none, none⟩

/-- **C9.** A null response object left by navigation is a hard failure with
the no-response error and is not retried: in plain mode the trace shows the
single `networkidle` load (no fallback navigation), in challenge mode the
two loads only; the no-response error is classified neither as a
connection-closed error nor as a timeout, so neither the plain-mode fallback
nor the remote recovery re-runs it (a remote check whose run fails this way
stops after one attempt). -/
theorem no_response_hard_failure (m : Monitor) (sig : String) (env : RunEnv)
    (hctx : env.newContextErr = none) (hpage : env.newPageErr = none)
    (hp : m.urlProtocol = "http:" ∨ m.urlProtocol = "https:") :
    (m.subtype ≠ some "cf" → env.goto1 = .ok none →
      (runCheck m sig env).1 = .error noResponseError ∧
      (runCheck m sig env).2 =
        [.newContext, .newPage, .gotoCalled .networkidle (checkTimeout m.interval),
          .contextClosed]) ∧
    (m.subtype = some "cf" → env.goto1 = .ok none → env.goto2 = .ok none →
      isCloudflareChallengePage env.pageTitle env.pageBody = false →
      (runCheck m sig env).1 = .error noResponseError ∧
      (runCheck m sig env).2 =
        [.newContext, .newPage, .gotoCalled .domcontentloaded (checkTimeout m.interval),
          .gotoCalled .domcontentloaded (max 3000 (checkTimeout m.interval * 6 / 10)),
          .contextClosed]) ∧
    (isBrowserClosedError noResponseError = false ∧
      isNavigationTimeoutError noResponseError = false) ∧
    (∀ (rid : Nat) (rb : RemoteBrowserRecord) (cache : RemoteCache)
        (h1 : BrowserHandle) (c2 : Except JsError BrowserHandle)
        (run2 : Except JsError CheckSuccess),
      (check (some rid) (some rb) cache (.ok h1) c2 (.error noResponseError) run2).result =
        .error noResponseError ∧
      (check (some rid) (some rb) cache (.ok h1) c2 (.error noResponseError) run2).runAttempts
        = 1) := by
  have hclosed : isBrowserClosedError noResponseError = false := by decide
  have hproto : validateUrlProtocol m.urlProtocol = .ok () := by
    rcases hp with h | h <;> simp [validateUrlProtocol, h]
  refine ⟨?_, ?_, ⟨hclosed, by decide⟩, ?_⟩
  · intro hsub hg1
    constructor <;>
      simp [runCheck, runBody, navigatePlain, hctx, hpage, hproto, hsub, hg1]
  · intro hsub hg1 hg2 hcf
    constructor <;>
      simp [runCheck, runBody, navigateCloudflare, waitForCloudflareChallengeIfNeeded,
        challengeWaitEvents, hctx, hpage, hproto, hsub, hg1, hg2, hcf]
  · intro rid rb cache h1 c2 run2
    have hred : check (some rid) (some rb) cache (.ok h1) c2 (.error noResponseError) run2 =
        ⟨.error noResponseError,
          (getRemoteBrowser rid (some rb) cache (.ok h1) false).2.1, 1, []⟩ := by
      simp only [check]
      rw [remoteAttempt_connect_ok]
      simp [hclosed]
    rw [hred]
    exact ⟨rfl, rfl⟩

/-- Witness for C9: a plain-mode run whose navigation returns no response
fails with the no-response error after a single load, and a remote check
whose first run fails the same way makes exactly one attempt. -/
theorem no_response_hard_failure_witness :
    (runCheck monPlain "sig"
        ⟨none, none, .ok none, .ok (some ⟨200, 7⟩), "Welcome", "hello", true,
          none, none⟩).1 = .error noResponseError ∧
    (runCheck monPlain "sig"
        ⟨none, none, .ok none, .ok (some ⟨200, 7⟩), "Welcome", "hello", true,
          none, none⟩).2 =
      [.newContext, .newPage, .gotoCalled .networkidle 4000, .contextClosed] ∧
    (check (some 7) (some ⟨7, "ws://a"⟩) [] (.ok ⟨1, true⟩) (.ok ⟨2, true⟩)
        (.error noResponseError) (.ok ⟨200, 7⟩)).runAttempts = 1 := by
  refine ⟨?_, ?_, ?_⟩
  · exact ((no_response_hard_failure monPlain "sig"
      ⟨none, none, .ok none, .ok (some ⟨200, 7⟩), "Welcome", "hello", true, none, none⟩
      rfl rfl (Or.inr rfl)).1 (by decide) rfl).1
  · exact ((no_response_hard_failure monPlain "sig"
      ⟨none, none, .ok none, .ok (some ⟨200, 7⟩), "Welcome", "hello", true, none, none⟩
      rfl rfl (Or.inr rfl)).1 (by decide) rfl).2
  · exact ((no_response_hard_failure monPlain "sig" envOk rfl rfl (Or.inr rfl)).2.2.2
      7 ⟨7, "ws://a"⟩ [] ⟨1, true⟩ (.ok ⟨2, true⟩) (.ok ⟨200, 7⟩)).2

/-- **C10.** Whenever navigation yields a non-null response and the
screenshot operation succeeds, the screenshot (under the signed filename
`sig ++ ".png"`) appears in the run's trace, even when the status falls
outside `[200, 400)` and the run then fails with the status-code error:
the screenshot is captured before the status is classified. -/
theorem screenshot_before_classification (m : Monitor) (sig : String) (env : RunEnv)
    (res : Response)
    (hctx : env.newContextErr = none) (hpage : env.newPageErr = none)
    (hp : m.urlProtocol = "http:" ∨ m.urlProtocol = "https:")
    (hnav : (if m.subtype = some "cf" then navigateCloudflare (checkTimeout m.interval) env
             else navigatePlain (checkTimeout m.interval) env).1 = .ok (some res))
    (hshot : env.screenshotErr = none) :
    Ev.screenshotTaken (sig ++ ".png") ∈ (runCheck m sig env).2 ∧
    ((res.status < 200 ∨ 400 ≤ res.status) →
      (runCheck m sig env).1 = .error ⟨"Error", toString res.status⟩) := by
  have hproto : validateUrlProtocol m.urlProtocol = .ok () := by
    rcases hp with h | h <;> simp [validateUrlProtocol, h]
  constructor
  · simp [runCheck, runBody, hctx, hpage, hproto, hnav, hshot]
  · intro hbad
    have hcls : ¬(200 ≤ res.status ∧ res.status < 400) := by omega
    simp [runCheck, runBody, classify, hctx, hpage, hproto, hnav, hshot, hcls]

/-- Witness for C10: a plain-mode run answered with HTTP 500 still records
the screenshot under the signed filename and then fails with "500". -/
theorem screenshot_before_classification_witness :
    Ev.screenshotTaken "sig.png" ∈
      (runCheck monPlain "sig"
        ⟨none, none, .ok (some ⟨500, 9⟩), .ok none, "Welcome", "hello", true,
          none, none⟩).2 ∧
    (runCheck monPlain "sig"
        ⟨none, none, .ok (some ⟨500, 9⟩), .ok none, "Welcome", "hello", true,
          none, none⟩).1 = .error ⟨"Error", "500"⟩ := by
  constructor
  · exact (screenshot_before_classification monPlain "sig"
      ⟨none, none, .ok (some ⟨500, 9⟩), .ok none, "Welcome", "hello", true, none, none⟩
      ⟨500, 9⟩ rfl rfl (Or.inr rfl) rfl rfl).1
  · exact (screenshot_before_classification monPlain "sig"
      ⟨none, none, .ok (some ⟨500, 9⟩), .ok none, "Welcome", "hello", true, none, none⟩
      ⟨500, 9⟩ rfl rfl (Or.inr rfl) rfl rfl).2 (Or.inr (by decide))

/-- **C1.** Remote recovery: in local mode a single run's outcome propagates
with no eviction and no second attempt.  In remote mode (record resolved,
connections succeeding): a first run that fails with a connection-closed
class error triggers exactly one eviction of the configured id followed by
one reacquisition and one re-run, whose outcome — success or any failure —
propagates as-is with no further retry, and the reacquired handle is cached
for the id afterwards; a first-run failure that is not connection-closed
propagates immediately after the single attempt, with no eviction; a first
run that succeeds ends after one attempt. -/
theorem remote_recovery_once (rid : Nat) (rb : RemoteBrowserRecord) (cache : RemoteCache)
    (h1 h2 : BrowserHandle) (run1 run2 : Except JsError CheckSuccess) (e : JsError) :
    (∀ (record : Option RemoteBrowserRecord) (c1 c2 : Except JsError BrowserHandle)
        (r1 r2 : Except JsError CheckSuccess),
      check none record cache c1 c2 r1 r2 = ⟨r1, cache, 1, []⟩) ∧
    (run1 = .error e → isBrowserClosedError e = true →
      (check (some rid) (some rb) cache (.ok h1) (.ok h2) run1 run2).result = run2 ∧
      (check (some rid) (some rb) cache (.ok h1) (.ok h2) run1 run2).runAttempts = 2 ∧
      (check (some rid) (some rb) cache (.ok h1) (.ok h2) run1 run2).evictions = [rid] ∧
      (rb.id = rid →
        cacheGet (check (some rid) (some rb) cache (.ok h1) (.ok h2) run1 run2).cache rid =
          some ⟨rb.url, h2⟩)) ∧
    (run1 = .error e → isBrowserClosedError e = false →
      check (some rid) (some rb) cache (.ok h1) (.ok h2) run1 run2 =
        ⟨.error e, (getRemoteBrowser rid (some rb) cache (.ok h1) false).2.1, 1, []⟩) ∧
    (∀ s, run1 = .ok s →
      check (some rid) (some rb) cache (.ok h1) (.ok h2) run1 run2 =
        ⟨.ok s, (getRemoteBrowser rid (some rb) cache (.ok h1) false).2.1, 1, []⟩) := by
  refine ⟨?_, ?_, ?_, ?_⟩
  · intro record c1 c2 r1 r2
    rfl
  · intro hr1 hcl
    subst hr1
    have hred : check (some rid) (some rb) cache (.ok h1) (.ok h2) (.error e) run2 =
        ⟨run2,
          (getRemoteBrowser rid (some rb)
            (clearRemoteBrowserConnection
              (getRemoteBrowser rid (some rb) cache (.ok h1) false).2.1 rid).1
            (.ok h2) false).2.1, 2, [rid]⟩ := by
      simp only [check]
      rw [remoteAttempt_connect_ok]
      simp only [hcl, if_true]
      rw [remoteAttempt_connect_ok]
    rw [hred]
    refine ⟨rfl, rfl, rfl, ?_⟩
    intro hid
    subst hid
    have hnone : cacheGet (clearRemoteBrowserConnection
        (getRemoteBrowser rb.id (some rb) cache (.ok h1) false).2.1 rb.id).1 rb.id = none :=
      clear_cacheGet _ _
    rw [getRemoteBrowser_miss rb.id rb _ h2 false hnone]
    exact cacheGet_set_of_none _ _ _ hnone
  · intro hr1 hcl
    subst hr1
    simp only [check]
    rw [remoteAttempt_connect_ok]
    simp [hcl]
  · intro s hr1
    subst hr1
    simp only [check]
    rw [remoteAttempt_connect_ok]

/-- Witness for C1 at concrete inputs: a first run failing with "Target
closed" on an empty cache leads to eviction of id 7, one retry that
succeeds, and the reconnected handle cached under id 7; a non-closed
failure stops after one attempt with no eviction; local mode runs once. -/
theorem remote_recovery_once_witness :
    (check (some 7) (some ⟨7, "ws://a"⟩) [] (.ok ⟨1, true⟩) (.ok ⟨2, true⟩)
        (.error ⟨"Error", "Target closed"⟩) (.ok ⟨200, 5⟩)).result = .ok ⟨200, 5⟩ ∧
    (check (some 7) (some ⟨7, "ws://a"⟩) [] (.ok ⟨1, true⟩) (.ok ⟨2, true⟩)
        (.error ⟨"Error", "Target closed"⟩) (.ok ⟨200, 5⟩)).runAttempts = 2 ∧
    (check (some 7) (some ⟨7, "ws://a"⟩) [] (.ok ⟨1, true⟩) (.ok ⟨2, true⟩)
        (.error ⟨"Error", "Target closed"⟩) (.ok ⟨200, 5⟩)).evictions = [7] ∧
    cacheGet (check (some 7) (some ⟨7, "ws://a"⟩) [] (.ok ⟨1, true⟩) (.ok ⟨2, true⟩)
        (.error ⟨"Error", "Target closed"⟩) (.ok ⟨200, 5⟩)).cache 7 =
      some ⟨"ws://a", ⟨2, true⟩⟩ ∧
    (check (some 7) (some ⟨7, "ws://a"⟩) [] (.ok ⟨1, true⟩) (.ok ⟨2, true⟩)
        (.error ⟨"Error", "ECONNRESET"⟩) (.ok ⟨200, 5⟩)).runAttempts = 1 ∧
    (check (some 7) (some ⟨7, "ws://a"⟩) [] (.ok ⟨1, true⟩) (.ok ⟨2, true⟩)
        (.error ⟨"Error", "ECONNRESET"⟩) (.ok ⟨200, 5⟩)).evictions = [] ∧
    check none (some ⟨7, "ws://a"⟩) [] (.ok ⟨1, true⟩) (.ok ⟨2, true⟩)
        (.error ⟨"Error", "Target closed"⟩) (.ok ⟨200, 5⟩) =
      ⟨.error ⟨"Error", "Target closed"⟩, [], 1, []⟩ := by
  have hclosed := (remote_recovery_once 7 ⟨7, "ws://a"⟩ [] ⟨1, true⟩ ⟨2, true⟩
    (.error ⟨"Error", "Target closed"⟩) (.ok ⟨200, 5⟩) ⟨"Error", "Target closed"⟩).2.1
    rfl (by decide)
  have hother := (remote_recovery_once 7 ⟨7, "ws://a"⟩ [] ⟨1, true⟩ ⟨2, true⟩
    (.error ⟨"Error", "ECONNRESET"⟩) (.ok ⟨200, 5⟩) ⟨"Error", "ECONNRESET"⟩).2.2.1
    rfl (by decide)
  refine ⟨hclosed.1, hclosed.2.1, hclosed.2.2.1, hclosed.2.2.2 rfl, ?_, ?_, ?_⟩
  · rw [hother]
  · rw [hother]
  · exact (remote_recovery_once 7 ⟨7, "ws://a"⟩ [] ⟨1, true⟩ ⟨2, true⟩
      (.error ⟨"Error", "Target closed"⟩) (.ok ⟨200, 5⟩) ⟨"Error", "Target closed"⟩).1
      (some ⟨7, "ws://a"⟩) (.ok ⟨1, true⟩) (.ok ⟨2, true⟩)
      (.error ⟨"Error", "Target closed"⟩) (.ok ⟨200, 5⟩)

/-- **C7.** `getRemoteBrowser` returns the cached handle exactly when the
entry's handle reports connected and its stored URL equals the record's
current URL (no connect is consumed, the cache is untouched); any other
existing entry is closed (best-effort: the result does not depend on the
close outcome, which `getRemoteBrowser` ignores) and removed before the new
connection is stored; on a cache miss the new connection is stored directly.
Key uniqueness (at most one entry per id) is preserved by acquisition, by
`clearRemoteBrowserConnection` and by the disconnect observer; and the
observer removes an entry exactly when it still references the very handle
that disconnected. -/
theorem remote_cache_invariants :
    (∀ (rid : Nat) (rb : RemoteBrowserRecord) (cache : RemoteCache) (entry : CacheEntry)
        (connectR : Except JsError BrowserHandle) (cf : Bool),
      cacheGet cache rb.id = some entry → entry.browser.connected = true →
      entry.url = rb.url →
      getRemoteBrowser rid (some rb) cache connectR cf = (.ok entry.browser, cache, [])) ∧
    (∀ (rid : Nat) (rb : RemoteBrowserRecord) (cache : RemoteCache) (entry : CacheEntry)
        (fresh : BrowserHandle) (cf : Bool),
      cacheGet cache rb.id = some entry →
      entry.browser.connected = false ∨ entry.url ≠ rb.url →
      getRemoteBrowser rid (some rb) cache (.ok fresh) cf =
        (.ok fresh, cacheSet (cacheDelete cache rb.id) rb.id ⟨rb.url, fresh⟩,
          [entry.browser.hid])) ∧
    (∀ (rid : Nat) (rb : RemoteBrowserRecord) (cache : RemoteCache)
        (fresh : BrowserHandle) (cf : Bool),
      cacheGet cache rb.id = none →
      getRemoteBrowser rid (some rb) cache (.ok fresh) cf =
        (.ok fresh, cacheSet cache rb.id ⟨rb.url, fresh⟩, [])) ∧
    (∀ (rid : Nat) (record : Option RemoteBrowserRecord) (cache : RemoteCache)
        (connectR : Except JsError BrowserHandle) (cf : Bool),
      (cacheKeys cache).Nodup →
      (cacheKeys (getRemoteBrowser rid record cache connectR cf).2.1).Nodup) ∧
    (∀ (c : RemoteCache) (k : Nat),
      (cacheKeys c).Nodup → (cacheKeys (clearRemoteBrowserConnection c k).1).Nodup) ∧
    (∀ (c : RemoteCache) (k : Nat) (h : BrowserHandle) (cur : CacheEntry),
      cacheGet c k = some cur →
      (cur.browser.hid = h.hid → onRemoteDisconnected c k h = cacheDelete c k) ∧
      (cur.browser.hid ≠ h.hid → onRemoteDisconnected c k h = c)) := by
  refine ⟨?_, ?_, ?_, ?_, ?_, ?_⟩
  · intro rid rb cache entry connectR cf hg hconn hurl
    simp [getRemoteBrowser, hg, hconn, hurl]
  · intro rid rb cache entry fresh cf hg hstale
    have hv : (entry.browser.connected && entry.url == rb.url) = false := by
      rcases hstale with h | h <;> simp [h]
    simp only [getRemoteBrowser, hg]
    simp [hv]
  · intro rid rb cache fresh cf hg
    simp [getRemoteBrowser, hg]
  · intro rid record cache connectR cf h
    match record with
    | none => simpa [getRemoteBrowser] using h
    | some rb =>
      cases hg : cacheGet cache rb.id with
      | some entry =>
        by_cases hv : (entry.browser.connected && entry.url == rb.url) = true
        · simpa [getRemoteBrowser, hg, hv] using h
        · cases connectR with
          | error e =>
            simp only [getRemoteBrowser, hg]
            simp only [hv, if_false]
            exact keysNodup_delete _ _ h
          | ok fresh =>
            simp only [getRemoteBrowser, hg]
            simp only [hv, if_false]
            exact keysNodup_set _ _ _ (keysNodup_delete _ _ h)
      | none =>
        cases connectR with
        | error e => simpa [getRemoteBrowser, hg] using h
        | ok fresh =>
          simp only [getRemoteBrowser, hg]
          exact keysNodup_set _ _ _ h
  · intro c k h
    exact keysNodup_clear c k h
  · intro c k h cur hg
    constructor
    · intro he
      simp [onRemoteDisconnected, hg, he]
    · intro hne
      simp [onRemoteDisconnected, hg, hne]

/-- Witness for C7 at concrete caches: a connected, URL-matching entry is
returned as-is; a URL-mismatched entry is closed, evicted and replaced by
the fresh connection; a miss stores the fresh connection; key uniqueness is
preserved; the disconnect observer removes the entry for the disconnected
handle but keeps an entry that holds a newer handle. -/
theorem remote_cache_invariants_witness :
    getRemoteBrowser 5 (some ⟨5, "ws://a"⟩) [(5, ⟨"ws://a", ⟨3, true⟩⟩)]
        (.ok ⟨4, true⟩) false =
      (.ok ⟨3, true⟩, [(5, ⟨"ws://a", ⟨3, true⟩⟩)], []) ∧
    getRemoteBrowser 5 (some ⟨5, "ws://b"⟩) [(5, ⟨"ws://a", ⟨3, true⟩⟩)]
        (.ok ⟨4, true⟩) false =
      (.ok ⟨4, true⟩, [(5, ⟨"ws://b", ⟨4, true⟩⟩)], [3]) ∧
    getRemoteBrowser 5 (some ⟨5, "ws://a"⟩) [] (.ok ⟨4, true⟩) false =
      (.ok ⟨4, true⟩, [(5, ⟨"ws://a", ⟨4, true⟩⟩)], []) ∧
    (cacheKeys (getRemoteBrowser 5 (some ⟨5, "ws://b"⟩) [(5, ⟨"ws://a", ⟨3, true⟩⟩)]
        (.ok ⟨4, true⟩) false).2.1).Nodup ∧
    onRemoteDisconnected [(5, ⟨"ws://a", ⟨3, true⟩⟩)] 5 ⟨3, true⟩ = [] ∧
    onRemoteDisconnected [(5, ⟨"ws://a", ⟨9, true⟩⟩)] 5 ⟨3, true⟩ =
      [(5, ⟨"ws://a", ⟨9, true⟩⟩)] := by
  refine ⟨?_, ?_, ?_, ?_, ?_, ?_⟩
  · exact (remote_cache_invariants.1 5 ⟨5, "ws://a"⟩ [(5, ⟨"ws://a", ⟨3, true⟩⟩)]
      ⟨"ws://a", ⟨3, true⟩⟩ (.ok ⟨4, true⟩) false rfl rfl rfl)
  · exact ((remote_cache_invariants.2.1 5 ⟨5, "ws://b"⟩ [(5, ⟨"ws://a", ⟨3, true⟩⟩)]
      ⟨"ws://a", ⟨3, true⟩⟩ ⟨4, true⟩ false rfl (Or.inr (by decide)))).trans rfl
  · exact ((remote_cache_invariants.2.2.1 5 ⟨5, "ws://a"⟩ [] ⟨4, true⟩ false rfl)).trans rfl
  · exact remote_cache_invariants.2.2.2.1 5 (some ⟨5, "ws://b"⟩)
      [(5, ⟨"ws://a", ⟨3, true⟩⟩)] (.ok ⟨4, true⟩) false (by decide)
  · exact ((remote_cache_invariants.2.2.2.2.2 [(5, ⟨"ws://a", ⟨3, true⟩⟩)] 5 ⟨3, true⟩
      ⟨"ws://a", ⟨3, true⟩⟩ rfl).1 rfl).trans rfl
  · exact (remote_cache_invariants.2.2.2.2.2 [(5, ⟨"ws://a", ⟨9, true⟩⟩)] 5 ⟨3, true⟩
      ⟨"ws://a", ⟨9, true⟩⟩ rfl).2 (by decide)

/-- **C5 (claim as stated, after the spec's words).** "For every
challenge-aware-mode check that reaches classification, the response used
for classification is the one returned by the second (post-challenge-wait)
page load, not the first load's response": whenever a challenge-mode check
ends in a classification outcome (UP, or a status-code error), the second
load returned a response object and that response is the one classified. -/
def specUsesSecondResponse : Prop :=
  ∀ (m : Monitor) (sig : String) (env : RunEnv),
    m.subtype = some "cf" →
    ((∃ s, (runCheck m sig env).1 = .ok s) ∨
      (∃ n : Nat, (runCheck m sig env).1 = .error ⟨"Error", toString n⟩)) →
    ∃ r2 : Response, env.goto2 = .ok (some r2) ∧ (runCheck m sig env).1 = classify r2

/-- Monitor in challenge-aware (cf) mode. -/
def monCf : Monitor := ⟨2, "m2", "https:", some "cf", 5, 0, none, 1⟩

/-- Challenge-mode environment: the first load answers HTTP 503, the
verification load returns no response object. -/
def envVerifyNull : RunEnv :=
  ⟨none, none, .ok (some ⟨503, 9⟩), .ok none, "Welcome", "fine", true, none, none⟩

/-- **C5 counterexample.** When the verification load returns null, the
code keeps the FIRST response (`if (verifyResponse) res = verifyResponse`)
and classifies it — here the first load's 503 determines the outcome even
though the second load returned no response — so the claim as stated is
false. -/
theorem cf_second_response_cex : ¬ specUsesSecondResponse := by
  intro hclaim
  obtain ⟨r2, hr2, -⟩ := hclaim monCf "sig" envVerifyNull rfl (Or.inr ⟨503, rfl⟩)
  simp [envVerifyNull] at hr2

/-- **C5 (amended).** For a challenge-mode check whose first load returns a
response and whose challenge wait passes: the second load — issued with
budget `max(3000, ⌊0.6 × budget⌋)` — supersedes the first as the response
classified whenever it returns a response; when it returns null, the first
load's response is retained and classified.  In particular a first response
of 503 and a second of 200 classify as 200. -/
theorem cf_second_response_amended (m : Monitor) (sig : String) (env : RunEnv)
    (r1 : Response)
    (hcf : m.subtype = some "cf")
    (hctx : env.newContextErr = none) (hpage : env.newPageErr = none)
    (hp : m.urlProtocol = "http:" ∨ m.urlProtocol = "https:")
    (hg1 : env.goto1 = .ok (some r1))
    (hwait : (waitForCloudflareChallengeIfNeeded env.pageTitle env.pageBody
        (checkTimeout m.interval) env.challengeClears).1 = .ok ())
    (hshot : env.screenshotErr = none) :
    (∀ r2 : Response, env.goto2 = .ok (some r2) →
      (runCheck m sig env).1 = classify r2 ∧
      Ev.gotoCalled .domcontentloaded (max 3000 (checkTimeout m.interval * 6 / 10)) ∈
        (runCheck m sig env).2) ∧
    (env.goto2 = .ok none → (runCheck m sig env).1 = classify r1) := by
  have hproto : validateUrlProtocol m.urlProtocol = .ok () := by
    rcases hp with h | h <;> simp [validateUrlProtocol, h]
  constructor
  · intro r2 hg2
    constructor <;>
      simp [runCheck, runBody, navigateCloudflare, challengeWaitEvents, hcf, hctx, hpage,
        hproto, hg1, hwait, hg2, hshot]
  · intro hg2
    simp [runCheck, runBody, navigateCloudflare, challengeWaitEvents, hcf, hctx, hpage,
      hproto, hg1, hwait, hg2, hshot]

/-- Challenge-mode environment: challenge markers on the first page, the
challenge clears, first response 503, second response 200. -/
def envCfSecond200 : RunEnv :=
  ⟨none, none, .ok (some ⟨503, 9⟩), .ok (some ⟨200, 11⟩), "Just a moment",
    "checking", true, none, none⟩

/-- Witness for amended C5: with a challenge that clears, a first response
of 503 and a second of 200 classify as UP/200; with the verification load
returning null, the first response's 503 is classified. -/
theorem cf_second_response_amended_witness :
    (runCheck monCf "sig" envCfSecond200).1 = .ok ⟨200, 11⟩ ∧
    (runCheck monCf "sig" envVerifyNull).1 = .error ⟨"Error", "503"⟩ := by
  constructor
  · have h := ((cf_second_response_amended monCf "sig" envCfSecond200 ⟨503, 9⟩ rfl rfl rfl
      (Or.inr rfl) rfl (by decide) rfl).1 ⟨200, 11⟩ rfl).1
    rw [h]
    rfl
  · have h := (cf_second_response_amended monCf "sig" envVerifyNull ⟨503, 9⟩ rfl rfl rfl
      (Or.inr rfl) rfl (by decide) rfl).2 rfl
    rw [h]
    rfl

/-- **C8 (claim as stated, after the spec's words).** "reset closes the
plain-slot handle and the challenge-slot handle whenever each is present and
clears both cached slots, and it ignores errors raised by either close":
for every pool state and close outcomes, reset returns normally, both slots
end cleared, and close is invoked on every present handle. -/
def specResetIgnoresCloseErrors : Prop :=
  ∀ (pool : LocalPool) (e1 e2 : Option JsError),
    (resetChrome pool e1 e2).1 = .ok () ∧
    (resetChrome pool e1 e2).2.1 = ⟨none, none⟩ ∧
    (∀ b, pool.localBrowser = some b → b.hid ∈ (resetChrome pool e1 e2).2.2) ∧
    (∀ b, pool.localCloudflareBrowser = some b → b.hid ∈ (resetChrome pool e1 e2).2.2)

/-- **C8 counterexample.** With both slots occupied and the plain-slot
close throwing, `resetChrome` propagates the error (there is no
try/catch around the closes), never attempts the challenge-slot close, and
leaves both slots set — the claim as stated is false. -/
theorem reset_close_error_cex : ¬ specResetIgnoresCloseErrors := by
  intro hclaim
  obtain ⟨hok, -, -, -⟩ :=
    hclaim ⟨some ⟨1, true⟩, some ⟨2, true⟩⟩ (some ⟨"Error", "boom"⟩) none
  simp [resetChrome] at hok

/-- **C8 (amended).** `resetChrome` closes the plain handle then the
challenge handle when present, clearing each slot after its close returns;
close errors are not ignored: an error closing the plain handle propagates,
leaves both slots set and prevents the challenge close; an error closing
the challenge handle propagates and leaves that slot set (the plain slot
already cleared). -/
theorem reset_close_error_propagates (pool : LocalPool) (b bc : BrowserHandle)
    (e : JsError) (e2 : Option JsError) :
    (pool.localBrowser = some b →
      resetChrome pool (some e) e2 = (.error e, pool, [b.hid])) ∧
    (pool.localBrowser = some b → pool.localCloudflareBrowser = some bc →
      resetChrome pool none (some e) = (.error e, ⟨none, some bc⟩, [b.hid, bc.hid])) ∧
    (pool.localBrowser = some b → pool.localCloudflareBrowser = some bc →
      resetChrome pool none none = (.ok (), ⟨none, none⟩, [b.hid, bc.hid])) ∧
    (pool.localBrowser = none → pool.localCloudflareBrowser = some bc →
      resetChrome pool none (some e) = (.error e, pool, [bc.hid])) ∧
    (pool.localBrowser = none → pool.localCloudflareBrowser = none →
      resetChrome pool none none = (.ok (), pool, [])) := by
  obtain ⟨lb, lc⟩ := pool
  refine ⟨?_, ?_, ?_, ?_, ?_⟩
  · intro h1
    dsimp at h1
    subst h1
    rfl
  · intro h1 h2
    dsimp at h1 h2
    subst h1
    subst h2
    rfl
  · intro h1 h2
    dsimp at h1 h2
    subst h1
    subst h2
    rfl
  · intro h1 h2
    dsimp at h1 h2
    subst h1
    subst h2
    rfl
  · intro h1 h2
    dsimp at h1 h2
    subst h1
    subst h2
    rfl

/-- Witness for amended C8 at a concrete pool: a plain-close error stops
everything with both slots kept; a challenge-close error is reached after
the plain slot cleared; with no errors both slots clear and both handles
are closed. -/
theorem reset_close_error_propagates_witness :
    resetChrome ⟨some ⟨1, true⟩, some ⟨2, true⟩⟩ (some ⟨"Error", "boom"⟩) none =
      (.error ⟨"Error", "boom"⟩, ⟨some ⟨1, true⟩, some ⟨2, true⟩⟩, [1]) ∧
    resetChrome ⟨some ⟨1, true⟩, some ⟨2, true⟩⟩ none (some ⟨"Error", "boom"⟩) =
      (.error ⟨"Error", "boom"⟩, ⟨none, some ⟨2, true⟩⟩, [1, 2]) ∧
    resetChrome ⟨some ⟨1, true⟩, some ⟨2, true⟩⟩ none none =
      (.ok (), ⟨none, none⟩, [1, 2]) := by
  refine ⟨?_, ?_, ?_⟩
  · exact (reset_close_error_propagates ⟨some ⟨1, true⟩, some ⟨2, true⟩⟩ ⟨1, true⟩
      ⟨2, true⟩ ⟨"Error", "boom"⟩ none).1 rfl
  · exact (reset_close_error_propagates ⟨some ⟨1, true⟩, some ⟨2, true⟩⟩ ⟨1, true⟩
      ⟨2, true⟩ ⟨"Error", "boom"⟩ none).2.1 rfl rfl
  · exact (reset_close_error_propagates ⟨some ⟨1, true⟩, some ⟨2, true⟩⟩ ⟨1, true⟩
      ⟨2, true⟩ ⟨"Error", "boom"⟩ none).2.2.1 rfl rfl

/-- **C6.** The challenge waiter returns immediately (no wait window) when
the challenge predicate is already false; otherwise it waits within a window
of exactly `max(3000, min(20000, ⌊0.7 × budget⌋))` ms, failing with the
challenge-timeout error when the markers are still present at the end of the
window and succeeding when they cleared within it. -/
theorem challenge_wait_window (title body : String) (t : Nat) (clears : Bool) :
    (isCloudflareChallengePage title body = false →
      waitForCloudflareChallengeIfNeeded title body t clears = (.ok (), none)) ∧
    (isCloudflareChallengePage title body = true →
      (waitForCloudflareChallengeIfNeeded title body t clears).2 =
        some (max 3000 (min 20000 (t * 7 / 10))) ∧
      (clears = false →
        (waitForCloudflareChallengeIfNeeded title body t clears).1 =
          .error cloudflareTimeoutError) ∧
      (clears = true →
        (waitForCloudflareChallengeIfNeeded title body t clears).1 = .ok ())) := by
  constructor
  · intro h
    simp [waitForCloudflareChallengeIfNeeded, h]
  · intro h
    refine ⟨by simp only [waitForCloudflareChallengeIfNeeded, h]; cases clears <;> simp, ?_, ?_⟩
    · intro hc
      simp [waitForCloudflareChallengeIfNeeded, h, hc]
    · intro hc
      simp [waitForCloudflareChallengeIfNeeded, h, hc]

/-- Witness for C6 at concrete inputs: a non-challenge page is skipped; a
"Just a moment" page with a 5000 ms budget opens a 3500 ms window and fails
with the challenge-timeout error when the markers never clear. -/
theorem challenge_wait_window_witness :
    waitForCloudflareChallengeIfNeeded "Welcome" "all good" 5000 true = (.ok (), none) ∧
    (waitForCloudflareChallengeIfNeeded "Just a Moment..." "x" 5000 false).2 = some 3500 ∧
    (waitForCloudflareChallengeIfNeeded "Just a Moment..." "x" 5000 false).1 =
      .error cloudflareTimeoutError ∧
    (waitForCloudflareChallengeIfNeeded "Just a Moment..." "x" 5000 true).1 = .ok () := by
  refine ⟨?_, ?_, ?_, ?_⟩
  · exact (challenge_wait_window "Welcome" "all good" 5000 true).1 (by decide)
  · exact ((challenge_wait_window "Just a Moment..." "x" 5000 false).2 (by decide)).1
  · exact ((challenge_wait_window "Just a Moment..." "x" 5000 false).2 (by decide)).2.1 rfl
  · exact ((challenge_wait_window "Just a Moment..." "x" 5000 true).2 (by decide)).2.2 rfl

/-- **C2.** The local-file-inclusion guard: a URL whose protocol is neither
`http:` nor `https:` makes the check fail with the invalid-protocol error
before any navigation happens (the event trace holds no `gotoCalled`), while
`http:`/`https:` URLs pass the guard without raising. -/
theorem scheme_guard (m : Monitor) (sig : String) (env : RunEnv)
    (hctx : env.newContextErr = none) (hpage : env.newPageErr = none) :
    (m.urlProtocol ≠ "http:" → m.urlProtocol ≠ "https:" →
      (runCheck m sig env).1 = .error invalidProtocolError ∧
      (runCheck m sig env).2 = [.newContext, .newPage, .contextClosed]) ∧
    (m.urlProtocol = "http:" ∨ m.urlProtocol = "https:" →
      validateUrlProtocol m.urlProtocol = .ok ()) := by
  constructor
  · intro h1 h2
    have hv : validateUrlProtocol m.urlProtocol = .error invalidProtocolError := by
      simp [validateUrlProtocol, h1, h2]
    constructor <;> simp [runCheck, runBody, hctx, hpage, hv]
  · rintro (h | h) <;> simp [validateUrlProtocol, h]

/-- Witness for C2: the `file:` monitor fails with the invalid-protocol
error and the trace shows no navigation; `https:` passes the guard. -/
theorem scheme_guard_witness :
    (runCheck monFile "sig" envOk).1 = .error invalidProtocolError ∧
    (runCheck monFile "sig" envOk).2 = [.newContext, .newPage, .contextClosed] ∧
    validateUrlProtocol "https:" = .ok () := by
  refine ⟨?_, ?_, ?_⟩
  · exact ((scheme_guard monFile "sig" envOk rfl rfl).1 (by decide) (by decide)).1
  · exact ((scheme_guard monFile "sig" envOk rfl rfl).1 (by decide) (by decide)).2
  · exact (scheme_guard monPlain "sig" envOk rfl rfl).2 (Or.inr rfl)

/-- **C3.** Whenever the browsing context was created, the run's trace ends
with the context being closed — on the success path and every failure path —
and the outcome of the run does not depend on whether closing the context
itself fails (the close error is swallowed). -/
theorem context_always_closed (m : Monitor) (sig : String) (env : RunEnv)
    (hctx : env.newContextErr = none) :
    (runCheck m sig env).2.getLast? = some .contextClosed ∧
    ∀ e, (runCheck m sig { env with closeErr := e }).1 = (runCheck m sig env).1 := by
  constructor
  · simp only [runCheck, hctx]
    exact List.getLast?_concat _
  · intro e
    cases env
    rfl

/-- Witness for C3: with a successful context creation, the trace of a
successful run ends in `contextClosed`, and replacing the close outcome by a
thrown error leaves the run's result unchanged. -/
theorem context_always_closed_witness :
    (runCheck monPlain "sig" envOk).2.getLast? = some .contextClosed ∧
    (runCheck monPlain "sig"
        { envOk with closeErr := some ⟨"Error", "close blew up"⟩ }).1 =
      (runCheck monPlain "sig" envOk).1 := by
  exact ⟨(context_always_closed monPlain "sig" envOk rfl).1,
    (context_always_closed monPlain "sig" envOk rfl).2 (some ⟨"Error", "close blew up"⟩)⟩

/-- **C4.** Plain-mode navigation: the first load uses `networkidle` at the
full budget; if it fails with a timeout-classified error there is exactly one
retry with `domcontentloaded` at `max(1000, ⌊0.6 × budget⌋)` whose outcome is
the navigation's outcome; a non-timeout error propagates with no retry.  An
error named `TimeoutError` is always timeout-classified. -/
theorem plain_navigation_fallback (t : Nat) (env : RunEnv) (e : JsError)
    (h : env.goto1 = .error e) :
    (isNavigationTimeoutError e = true →
      navigatePlain t env =
        (env.goto2, [.gotoCalled .networkidle t,
          .gotoCalled .domcontentloaded (max 1000 (t * 6 / 10))])) ∧
    (isNavigationTimeoutError e = false →
      navigatePlain t env = (.error e, [.gotoCalled .networkidle t])) ∧
    (∀ msg : String, isNavigationTimeoutError ⟨"TimeoutError", msg⟩ = true) := by
  refine ⟨?_, ?_, ?_⟩
  · intro ht
    simp [navigatePlain, h, ht]
  · intro ht
    simp [navigatePlain, h, ht]
  · intro msg
    simp [isNavigationTimeoutError]

/-- Witness for C4: with a 10000 ms budget, a thrown `TimeoutError` leads to
one `domcontentloaded` retry at 6000 ms (which here succeeds), while a thrown
connection-reset error propagates with a single navigation attempt. -/
theorem plain_navigation_fallback_witness :
    navigatePlain 10000
        ⟨none, none, .error ⟨"TimeoutError", "Timeout 10000ms exceeded"⟩,
          .ok (some ⟨200, 42⟩), "t", "b", true, none, none⟩ =
      (.ok (some ⟨200, 42⟩), [.gotoCalled .networkidle 10000,
        .gotoCalled .domcontentloaded 6000]) ∧
    navigatePlain 10000
        ⟨none, none, .error ⟨"Error", "net::ERR_CONNECTION_REFUSED"⟩,
          .ok (some ⟨200, 42⟩), "t", "b", true, none, none⟩ =
      (.error ⟨"Error", "net::ERR_CONNECTION_REFUSED"⟩,
        [.gotoCalled .networkidle 10000]) := by
  constructor
  · exact (plain_navigation_fallback 10000
      ⟨none, none, .error ⟨"TimeoutError", "Timeout 10000ms exceeded"⟩,
        .ok (some ⟨200, 42⟩), "t", "b", true, none, none⟩
      ⟨"TimeoutError", "Timeout 10000ms exceeded"⟩ rfl).1 (by decide)
  · exact (plain_navigation_fallback 10000
      ⟨none, none, .error ⟨"Error", "net::ERR_CONNECTION_REFUSED"⟩,
        .ok (some ⟨200, 42⟩), "t", "b", true, none, none⟩
      ⟨"Error", "net::ERR_CONNECTION_REFUSED"⟩ rfl).2.1 (by decide)
